import Mathlib

/-!
Shallow embedding of the Eurostat-Energy-ETL-Pipeline core:
the Insight Builder (`src/llm_app/build_knowledge_base.py`) and the
Forecaster (`src/ml/forecast_utils.py`).

Modelling conventions:
* numeric observation values are embedded as `ℚ` (the Python code uses
  floats; every claim under study concerns exact arithmetic on small
  literals, where `ℚ` and IEEE doubles agree);
* a nullable SQL value is `Option ℚ`; the SQL `WHERE value IS NOT NULL`
  filter becomes `filterNonNull`;
* the timestamp column is represented by the calendar year it parses to
  (an `Int`), since the code only ever uses `EXTRACT(YEAR ...)` /
  `pd.to_datetime(...).dt.year`;
* `pandas.groupby(["geo","indicator"])` visits keys in sorted order and
  keeps the original row order inside each group: embedded as a sorted
  deduplicated key list (`sortedKeys`) plus an order-preserving filter
  (`groupOf`);
* `grp.sort_values("year")` is embedded as a stable insertion sort by year;
* the generated `insight_text` f-string is embedded structurally as an
  `InsightText` record holding exactly the data interpolated into the
  sentence, with the `change_phrase` branch as the sum type `ChangePhrase`;
* the statsmodels `ExponentialSmoothing(...).fit()` call is external
  library code, so `forecast_gep` is parameterised by a `fit` function;
  `Except.error` models a Python exception propagating out of the call
  (the source has no try/except around the fit, which the embedding
  reflects by returning the error unchanged).
-/

namespace Eurostat

/-- One raw row of the `observations` table as selected by
`build_insights_df`: `country_code AS geo, indicator_code AS indicator,
time, value` (value nullable, time reduced to its calendar year). -/
structure Obs where
  geo : String
  indicator : String
  year : Int
  value : Option ℚ
  deriving DecidableEq

/-- A row after the SQL filter `WHERE value IS NOT NULL`. -/
structure ObsF where
  geo : String
  indicator : String
  year : Int
  value : ℚ
  deriving DecidableEq

/-- The SQL `WHERE value IS NOT NULL` filter. -/
def filterNonNull (input : List Obs) : List ObsF :=
  input.filterMap fun o => o.value.map fun v => ⟨o.geo, o.indicator, o.year, v⟩

/-- The groupby key of a filtered row: `(geo, indicator)`. -/
def obsKey (o : ObsF) : String × String := (o.geo, o.indicator)

/-- Lexicographic (Python-tuple style) order on groupby keys:
pandas `groupby` visits keys in this sorted order. -/
def keyLe (x y : String × String) : Prop :=
  x.1 < y.1 ∨ (x.1 = y.1 ∧ x.2 ≤ y.2)

/-- Strict lexicographic order on groupby keys. -/
def keyLt (x y : String × String) : Prop :=
  x.1 < y.1 ∨ (x.1 = y.1 ∧ x.2 < y.2)

instance : DecidableRel keyLe := fun x y => by
  unfold keyLe; infer_instance

instance : DecidableRel keyLt := fun x y => by
  unfold keyLt; infer_instance

instance : IsTotal (String × String) keyLe where
  total x y := by
    rcases lt_trichotomy x.1 y.1 with h | h | h
    · exact Or.inl (Or.inl h)
    · rcases le_total x.2 y.2 with h2 | h2
      · exact Or.inl (Or.inr ⟨h, h2⟩)
      · exact Or.inr (Or.inr ⟨h.symm, h2⟩)
    · exact Or.inr (Or.inl h)

instance : IsTrans (String × String) keyLe where
  trans x y z hxy hyz := by
    rcases hxy with h1 | ⟨e1, l1⟩
    · rcases hyz with h2 | ⟨e2, _⟩
      · exact Or.inl (h1.trans h2)
      · exact Or.inl (e2 ▸ h1)
    · rcases hyz with h2 | ⟨e2, l2⟩
      · exact Or.inl (e1 ▸ h2)
      · exact Or.inr ⟨e1.trans e2, l1.trans l2⟩

/-- The sorted, deduplicated list of `(geo, indicator)` groupby keys. -/
def sortedKeys (rows : List ObsF) : List (String × String) :=
  List.insertionSort keyLe (rows.map obsKey).dedup

/-- The rows of one groupby group, in original row order. -/
def groupOf (rows : List ObsF) (k : String × String) : List ObsF :=
  rows.filter fun o => obsKey o = k

/-- `grp.sort_values("year")`: stable sort of a group by year ascending. -/
def sortByYear (g : List ObsF) : List ObsF :=
  List.insertionSort (fun a b => a.year ≤ b.year) g

/-- `_indicator_name`: map indicator codes to display names; codes absent
from the mapping pass through unchanged. -/
def indicator_name (indicator_code : String) : String :=
  if indicator_code = "GEP" then "Gross Electricity Production (GEP)"
  else if indicator_code = "FC_E" then "Final Energy Consumption – Total"
  else if indicator_code = "FC_IND_E" then "Final Energy Consumption – Industry"
  else if indicator_code = "FC_TRA_E" then "Final Energy Consumption – Transport"
  else if indicator_code = "FC_OTH_CP_E" then "Final Energy Consumption – Commercial/Public Services"
  else if indicator_code = "FC_OTH_HH_E" then "Final Energy Consumption – Households"
  else indicator_code

/-- `_country_name`: currently the identity on country codes. -/
def country_name (geo_code : String) : String := geo_code

/-- The default trend threshold `0.01` of `_trend_label`. -/
def defaultThreshold : ℚ := 1 / 100

/-- `_trend_label`: classify the trend based on the slope per year. -/
def trend_label (slope : ℚ) (threshold : ℚ) : String :=
  if slope > threshold then "rising"
  else if slope < -threshold then "declining"
  else "stable"

/-- The `change_phrase` of the insight sentence: percentage phrasing when
`growth_pct` is defined, absolute-unit phrasing otherwise. -/
inductive ChangePhrase where
  | percentage (growth_pct : ℚ) (n_years : Int)
  | absolute (delta : ℚ) (n_years : Int)
  deriving DecidableEq

/-- Structural embedding of the generated `insight_text` f-string: the
record holds exactly the data interpolated into the sentence. -/
structure InsightText where
  country : String
  indicator_h : String
  start_value : ℚ
  start_year : Int
  end_value : ℚ
  end_year : Int
  change_phrase : ChangePhrase
  trend : String
  deriving DecidableEq

/-- One record appended to `records` in `build_insights_df`. -/
structure InsightRow where
  geo : String
  indicator : String
  indicator_name : String
  start_year : Int
  end_year : Int
  start_value : ℚ
  end_value : ℚ
  n_years : Int
  slope_per_year : ℚ
  growth_pct : Option ℚ
  trend_label : String
  insight_text : InsightText
  deriving DecidableEq

/-- The body of the per-group loop of `build_insights_df`, once the group
has been sorted by year and found to have at least two rows: `first` and
`lastr` are the first and last rows of the sorted group. -/
def mkInsightRow (k : String × String) (first lastr : ObsF) : InsightRow :=
  let start_year := first.year
  let end_year := lastr.year
  let start_val := first.value
  let end_val := lastr.value
  let n_years : Int := max (end_year - start_year) 1
  let slope : ℚ := (end_val - start_val) / (n_years : ℚ)
  let growth_pct : Option ℚ :=
    if start_val ≠ 0 then some ((end_val - start_val) / start_val) else none
  let indicator_h := indicator_name k.2
  let country_h := country_name k.1
  let trend := trend_label slope defaultThreshold
  let change_phrase : ChangePhrase :=
    match growth_pct with
    | some g => ChangePhrase.percentage g n_years
    | none => ChangePhrase.absolute (end_val - start_val) n_years
  { geo := k.1
    indicator := k.2
    indicator_name := indicator_h
    start_year := start_year
    end_year := end_year
    start_value := start_val
    end_value := end_val
    n_years := n_years
    slope_per_year := slope
    growth_pct := growth_pct
    trend_label := trend
    insight_text :=
      { country := country_h
        indicator_h := indicator_h
        start_value := start_val
        start_year := start_year
        end_value := end_val
        end_year := end_year
        change_phrase := change_phrase
        trend := trend } }

/-- One iteration of the per-group loop: sort the group by year, skip it
when it has fewer than 2 rows, otherwise build its insight record. -/
def insightRecord (k : String × String) (grp : List ObsF) : Option InsightRow :=
  let g := sortByYear grp
  if g.length < 2 then none
  else
    match g.head?, g.getLast? with
    | some first, some lastr => some (mkInsightRow k first lastr)
    | _, _ => none

/-- The list of records produced by `build_insights_df` (the rows of the
returned DataFrame), given the raw SQL result. -/
def build_insights_rows (input : List Obs) : List InsightRow :=
  let rows := filterNonNull input
  (sortedKeys rows).filterMap fun k => insightRecord k (groupOf rows k)

/-- The column list of the empty-input branch of `build_insights_df`. -/
def insightColumnsEmptyBranch : List String :=
  ["geo", "indicator", "indicator_name", "insight_text",
   "start_year", "end_year", "start_value", "end_value",
   "n_years", "slope_per_year", "growth_pct", "trend_label"]

/-- The column list of `pd.DataFrame(records)` for nonempty `records`:
the dict-key insertion order of the loop body. -/
def insightColumnsRecordBranch : List String :=
  ["geo", "indicator", "indicator_name",
   "start_year", "end_year", "start_value", "end_value",
   "n_years", "slope_per_year", "growth_pct", "trend_label", "insight_text"]

/-- The columns of the DataFrame returned by `build_insights_df`:
the explicit schema on the empty-`df` early return, the record-dict keys
when at least one record is emitted, and no columns at all when `records`
stays empty (`pd.DataFrame([])` has an empty column index). -/
def build_insights_columns (input : List Obs) : List String :=
  if filterNonNull input = [] then insightColumnsEmptyBranch
  else if build_insights_rows input = [] then []
  else insightColumnsRecordBranch

/-! ### Forecaster (`src/ml/forecast_utils.py`) -/

/-- One raw row of the `observations` table for the requested country and
the `GEP` indicator, as seen by the SQL query of `load_gep_timeseries`
(value nullable; `SQL AVG` skips nulls). -/
structure RawObs where
  year : Int
  value : Option ℚ
  deriving DecidableEq

/-- The non-null values recorded for year `y` (the inputs to `AVG(value)`
for that group, nulls skipped). -/
def yearValues (obs : List RawObs) (y : Int) : List ℚ :=
  obs.filterMap fun o => if o.year = y then o.value else none

/-- The distinct years of the input, sorted ascending
(`GROUP BY EXTRACT(YEAR FROM time) ... ORDER BY year`). -/
def sortedYears (obs : List RawObs) : List Int :=
  List.insertionSort (fun a b => a ≤ b) (obs.map RawObs.year).dedup

/-- `load_gep_timeseries`: one `(year, AVG(value))` row per distinct year
with at least one non-null value (SQL `AVG` returns NULL for an all-null
group, and `dropna` then removes that row), sorted ascending by year. -/
def load_gep_timeseries (obs : List RawObs) : List (Int × ℚ) :=
  (sortedYears obs).filterMap fun y =>
    let vs := yearValues obs y
    if vs.isEmpty then none
    else some (y, vs.sum / (vs.length : ℚ))

/-- The tag of a combined output row of `forecast_gep`. -/
inductive Kind where
  | historical
  | forecast
  deriving DecidableEq

/-- One row of the combined DataFrame returned by `forecast_gep`. -/
structure ForecastRow where
  year : Int
  value : ℚ
  kind : Kind
  deriving DecidableEq

/-- `ts.index.max()`: the maximum year of the loaded series (structural
fold; the `0` default is never reached where the code uses it, since the
series has at least 5 rows there). -/
def maxYear : List (Int × ℚ) → Int
  | [] => 0
  | p :: ps => ps.foldl (fun acc q => max acc q.1) p.1

/-- `forecast_gep`, parameterised by the external statsmodels fit.
`fit` receives the loaded series and either fails (a Python exception,
modelled as `Except.error`; the source wraps the fit in no try/except, so
the error is returned to the caller unchanged) or yields the point
forecast function `i ↦` forecast for the `i`-th future year.
Returns `Except.ok none` for the "no forecast available" outcome. -/
def forecast_gep (obs : List RawObs) (horizon_years : Nat)
    (fit : List (Int × ℚ) → Except String (Nat → ℚ)) :
    Except String (Option (List ForecastRow)) :=
  let df := load_gep_timeseries obs
  if df.length < 5 then Except.ok none
  else
    match fit df with
    | Except.error e => Except.error e
    | Except.ok f =>
      let last_year := maxYear df
      let forecast_df : List ForecastRow :=
        (List.range horizon_years).map fun i =>
          ⟨last_year + 1 + Int.ofNat i, f i, Kind.forecast⟩
      let hist_df : List ForecastRow :=
        df.map fun p => ⟨p.1, p.2, Kind.historical⟩
      Except.ok (some (hist_df ++ forecast_df))

/-! ### Structural lemmas about the Insight Builder -/

/-- Every row of the output is `mkInsightRow k first lastr` for some group
key `k` and the first/last rows of the year-sorted group. -/
theorem mem_build_insights_rows {input : List Obs} {row : InsightRow}
    (h : row ∈ build_insights_rows input) :
    ∃ k first lastr,
      k ∈ sortedKeys (filterNonNull input) ∧
      ¬ (sortByYear (groupOf (filterNonNull input) k)).length < 2 ∧
      (sortByYear (groupOf (filterNonNull input) k)).head? = some first ∧
      (sortByYear (groupOf (filterNonNull input) k)).getLast? = some lastr ∧
      row = mkInsightRow k first lastr := by
  unfold build_insights_rows at h
  simp only [List.mem_filterMap] at h
  obtain ⟨k, hk, hrec⟩ := h
  unfold insightRecord at hrec
  by_cases hlen : (sortByYear (groupOf (filterNonNull input) k)).length < 2
  · simp [hlen] at hrec
  · simp only [if_neg hlen] at hrec
    rcases hh : (sortByYear (groupOf (filterNonNull input) k)).head? with _ | first
    · simp [hh] at hrec
    · rcases hl : (sortByYear (groupOf (filterNonNull input) k)).getLast? with _ | lastr
      · simp [hh, hl] at hrec
      · simp only [hh, hl, Option.some.injEq] at hrec
        exact ⟨k, first, lastr, hk, hlen, hh, hl, hrec.symm⟩

/-! ### Concrete inputs used by examples, witnesses and counterexamples -/

/-- The scenario-example input of the spec:
`(DE, GEP, 2018, 100), (DE, GEP, 2019, 110), (DE, GEP, 2020, 121)`. -/
def exampleC9 : List Obs :=
  [⟨"DE", "GEP", 2018, some 100⟩, ⟨"DE", "GEP", 2019, some 110⟩,
   ⟨"DE", "GEP", 2020, some 121⟩]

/-- The insight row the code produces for `exampleC9`. -/
def c9ExpectedRow : InsightRow :=
  { geo := "DE"
    indicator := "GEP"
    indicator_name := "Gross Electricity Production (GEP)"
    start_year := 2018
    end_year := 2020
    start_value := 100
    end_value := 121
    n_years := 2
    slope_per_year := 21 / 2
    growth_pct := some (21 / 100)
    trend_label := "rising"
    insight_text :=
      { country := "DE"
        indicator_h := "Gross Electricity Production (GEP)"
        start_value := 100
        start_year := 2018
        end_value := 121
        end_year := 2020
        change_phrase := ChangePhrase.percentage (21 / 100) 2
        trend := "rising" } }

/-- A series whose start value is zero. -/
def c8Input : List Obs :=
  [⟨"FR", "GEP", 2018, some 0⟩, ⟨"FR", "GEP", 2020, some 5⟩]

/-- The insight row the code produces for `c8Input`: undefined growth and
the absolute-unit change phrase. -/
def c8Row : InsightRow :=
  { geo := "FR"
    indicator := "GEP"
    indicator_name := "Gross Electricity Production (GEP)"
    start_year := 2018
    end_year := 2020
    start_value := 0
    end_value := 5
    n_years := 2
    slope_per_year := 5 / 2
    growth_pct := none
    trend_label := "rising"
    insight_text :=
      { country := "FR"
        indicator_h := "Gross Electricity Production (GEP)"
        start_value := 0
        start_year := 2018
        end_value := 5
        end_year := 2020
        change_phrase := ChangePhrase.absolute 5 2
        trend := "rising" } }

/-! ### Claim theorems: trend classification, span/slope, growth phrasing -/

/-- Claim C7: with the default threshold 0.01, the trend label is
"rising" iff slope > 0.01, "declining" iff slope < -0.01, and "stable"
otherwise — including slope exactly 0 and slopes exactly at the
threshold. -/
theorem c7_trend_label_iff (slope : ℚ) :
    (trend_label slope defaultThreshold = "rising" ↔ slope > 1 / 100) ∧
    (trend_label slope defaultThreshold = "declining" ↔ slope < -(1 / 100)) ∧
    (trend_label slope defaultThreshold = "stable" ↔
      -(1 / 100) ≤ slope ∧ slope ≤ 1 / 100) := by
  have hrd : ("rising" : String) ≠ "declining" := by decide
  have hrs : ("rising" : String) ≠ "stable" := by decide
  have hds : ("declining" : String) ≠ "stable" := by decide
  unfold trend_label defaultThreshold
  split_ifs with h1 h2
  · exact ⟨⟨fun _ => h1, fun _ => rfl⟩,
      ⟨fun he => absurd he hrd, fun hc => False.elim (by linarith)⟩,
      ⟨fun he => absurd he hrs, fun hc => False.elim (by linarith [hc.2])⟩⟩
  · exact ⟨⟨fun he => absurd he.symm hrd, fun hc => absurd hc h1⟩,
      ⟨fun _ => h2, fun _ => rfl⟩,
      ⟨fun he => absurd he hds, fun hc => False.elim (by linarith [hc.1])⟩⟩
  · exact ⟨⟨fun he => absurd he.symm hrs, fun hc => absurd hc h1⟩,
      ⟨fun he => absurd he.symm hds, fun hc => absurd hc h2⟩,
      ⟨fun _ => ⟨not_lt.mp h2, not_lt.mp h1⟩, fun _ => rfl⟩⟩

/-- Claim C9: every emitted insight row satisfies
`n_years = max(end_year - start_year, 1) ≥ 1` and
`slope_per_year = (end_value - start_value) / n_years`, so the slope
division can never divide by zero; and the example series
(DE, GEP): (2018, 100), (2019, 110), (2020, 121) yields n_years = 2,
slope_per_year = 10.5, growth_pct = 0.21 and trend label "rising". -/
theorem c9_span_slope :
    (∀ (input : List Obs) (row : InsightRow), row ∈ build_insights_rows input →
      row.n_years = max (row.end_year - row.start_year) 1 ∧
      1 ≤ row.n_years ∧
      row.slope_per_year = (row.end_value - row.start_value) / (row.n_years : ℚ)) ∧
    build_insights_rows exampleC9 = [c9ExpectedRow] := by
  constructor
  · intro input row h
    obtain ⟨k, first, lastr, _, _, _, _, hrow⟩ := mem_build_insights_rows h
    subst hrow
    refine ⟨rfl, le_max_right _ _, ?_⟩
    simp [mkInsightRow]
  · norm_num [build_insights_rows, exampleC9, filterNonNull, sortedKeys, obsKey,
      groupOf, sortByYear, insightRecord, mkInsightRow, indicator_name,
      country_name, trend_label, defaultThreshold, c9ExpectedRow,
      List.insertionSort, List.orderedInsert, max_def,
      List.dedup_cons_of_mem, List.dedup_cons_of_not_mem, List.dedup_nil,
      List.filterMap_cons, List.filterMap_nil, List.filter_cons, List.filter_nil,
      List.getLast?_cons_cons, List.getLast?_singleton]

/-- Witness for C9 at the scenario example of the spec. -/
theorem c9_span_slope_witness :
    c9ExpectedRow.n_years = max (c9ExpectedRow.end_year - c9ExpectedRow.start_year) 1 ∧
    1 ≤ c9ExpectedRow.n_years ∧
    c9ExpectedRow.slope_per_year =
      (c9ExpectedRow.end_value - c9ExpectedRow.start_value) / (c9ExpectedRow.n_years : ℚ) := by
  have hmem : c9ExpectedRow ∈ build_insights_rows exampleC9 := by
    rw [c9_span_slope.2]; exact List.mem_singleton.mpr rfl
  exact c9_span_slope.1 exampleC9 c9ExpectedRow hmem

/-- Claim C8: every emitted insight row has
`growth_pct = (end_value - start_value) / start_value` when
`start_value ≠ 0` and `growth_pct = none` when `start_value = 0`, and
the generated sentence uses the percentage change phrase exactly when
`growth_pct` is defined, the absolute-unit phrase otherwise. -/
theorem c8_growth_phrasing :
    ∀ (input : List Obs) (row : InsightRow), row ∈ build_insights_rows input →
      (row.start_value ≠ 0 →
        row.growth_pct = some ((row.end_value - row.start_value) / row.start_value) ∧
        row.insight_text.change_phrase =
          ChangePhrase.percentage
            ((row.end_value - row.start_value) / row.start_value) row.n_years) ∧
      (row.start_value = 0 →
        row.growth_pct = none ∧
        row.insight_text.change_phrase =
          ChangePhrase.absolute (row.end_value - row.start_value) row.n_years) := by
  intro input row h
  obtain ⟨k, first, lastr, _, _, _, _, hrow⟩ := mem_build_insights_rows h
  subst hrow
  constructor
  · intro hne
    simp only [mkInsightRow] at hne ⊢
    simp [hne]
  · intro h0
    simp only [mkInsightRow] at h0 ⊢
    simp [h0]

/-- Witness for C8 at a series whose start value is zero. -/
theorem c8_growth_phrasing_witness :
    c8Row.start_value = 0 ∧
    c8Row.growth_pct = none ∧
    c8Row.insight_text.change_phrase =
      ChangePhrase.absolute (c8Row.end_value - c8Row.start_value) c8Row.n_years := by
  have heval : build_insights_rows c8Input = [c8Row] := by
    norm_num [build_insights_rows, c8Input, filterNonNull, sortedKeys, obsKey,
      groupOf, sortByYear, insightRecord, mkInsightRow, indicator_name,
      country_name, trend_label, defaultThreshold, c8Row,
      List.insertionSort, List.orderedInsert, max_def,
      List.dedup_cons_of_mem, List.dedup_cons_of_not_mem, List.dedup_nil,
      List.filterMap_cons, List.filterMap_nil, List.filter_cons, List.filter_nil,
      List.getLast?_cons_cons, List.getLast?_singleton]
  have hmem : c8Row ∈ build_insights_rows c8Input := by
    rw [heval]; exact List.mem_singleton.mpr rfl
  have h0 : c8Row.start_value = 0 := rfl
  exact ⟨h0, (c8_growth_phrasing c8Input c8Row hmem).2 h0⟩

/-! ### Key-structure lemmas for grouping and output order -/

/-- The record built for key `k` carries `k` as its `(geo, indicator)`. -/
theorem insightRecord_key {k : String × String} {grp : List ObsF}
    {row : InsightRow} (h : insightRecord k grp = some row) :
    (row.geo, row.indicator) = k := by
  unfold insightRecord at h
  by_cases hlen : (sortByYear grp).length < 2
  · simp [hlen] at h
  · simp only [if_neg hlen] at h
    rcases hh : (sortByYear grp).head? with _ | f
    · simp [hh] at h
    · rcases hl : (sortByYear grp).getLast? with _ | l
      · simp [hh, hl] at h
      · simp only [hh, hl, Option.some.injEq] at h
        subst h; rfl

theorem length_sortByYear (g : List ObsF) : (sortByYear g).length = g.length :=
  (List.perm_insertionSort _ g).length_eq

/-- A group key produces a record exactly when its group has at least
two rows. -/
theorem insightRecord_isSome_iff (k : String × String) (grp : List ObsF) :
    (insightRecord k grp).isSome = true ↔ 2 ≤ grp.length := by
  have hlen2 : (sortByYear grp).length = grp.length := length_sortByYear grp
  unfold insightRecord
  by_cases hlen : (sortByYear grp).length < 2
  · rw [if_pos hlen]
    simp only [Option.isSome_none, Bool.false_eq_true, false_iff]
    omega
  · rw [if_neg hlen]
    have hne : sortByYear grp ≠ [] := by
      intro he; rw [he] at hlen; simp at hlen
    obtain ⟨f, hf⟩ := Option.isSome_iff_exists.mp (List.head?_isSome.mpr hne)
    obtain ⟨l, hl⟩ := Option.isSome_iff_exists.mp (List.getLast?_isSome.mpr hne)
    rw [hf, hl]
    simp only [Option.isSome_some, true_iff]
    omega

/-- Mapping each output row to its key turns the output into a filter of
the sorted key list. -/
theorem map_key_rows (rows : List ObsF) (ks : List (String × String)) :
    (ks.filterMap fun k => insightRecord k (groupOf rows k)).map
        (fun r => (r.geo, r.indicator))
      = ks.filter fun k => (insightRecord k (groupOf rows k)).isSome := by
  induction ks with
  | nil => simp
  | cons k ks ih =>
    rcases hrec : insightRecord k (groupOf rows k) with _ | row
    · simp [List.filterMap_cons, hrec, List.filter_cons, ih]
    · have hk := insightRecord_key hrec
      simp [List.filterMap_cons, hrec, List.filter_cons, ih, hk]

theorem nodup_sortedKeys (rows : List ObsF) : (sortedKeys rows).Nodup :=
  ((List.perm_insertionSort keyLe _).symm).nodup (List.nodup_dedup _)

theorem sorted_sortedKeys (rows : List ObsF) :
    List.Pairwise keyLe (sortedKeys rows) :=
  List.sorted_insertionSort keyLe _

theorem keyLt_of_keyLe_ne {x y : String × String} (hle : keyLe x y)
    (hne : x ≠ y) : keyLt x y := by
  rcases hle with h | ⟨he, hle2⟩
  · exact Or.inl h
  · refine Or.inr ⟨he, lt_of_le_of_ne hle2 ?_⟩
    intro h2; exact hne (Prod.ext he h2)

theorem pairwise_keyLt_sortedKeys (rows : List ObsF) :
    List.Pairwise keyLt (sortedKeys rows) :=
  List.Pairwise.imp (fun h => keyLt_of_keyLe_ne h.1 h.2)
    ((sorted_sortedKeys rows).and (nodup_sortedKeys rows))

/-- In a duplicate-free list, a member is counted exactly once
(stated for an arbitrary lawful `BEq`). -/
theorem count_eq_one_of_mem_nodup {α : Type} [BEq α] [LawfulBEq α] {a : α}
    {l : List α} (hn : l.Nodup) (hm : a ∈ l) : l.count a = 1 := by
  induction l with
  | nil => simp at hm
  | cons b t ih =>
    rw [List.count_cons]
    rcases List.mem_cons.mp hm with rfl | hmt
    · have hnott : a ∉ t := (List.nodup_cons.mp hn).1
      simp [List.count_eq_zero.mpr hnott]
    · have hne : b ≠ a := by rintro rfl; exact (List.nodup_cons.mp hn).1 hmt
      simp [ih (List.nodup_cons.mp hn).2 hmt, hne]

theorem mem_sortedKeys_of_group_ne {rows : List ObsF} {k : String × String}
    (h : groupOf rows k ≠ []) : k ∈ sortedKeys rows := by
  rw [sortedKeys, (List.perm_insertionSort keyLe _).mem_iff, List.mem_dedup,
    List.mem_map]
  by_contra hno
  push_neg at hno
  apply h
  unfold groupOf
  rw [List.filter_eq_nil_iff]
  intro o ho
  simp only [decide_eq_true_eq]
  exact hno o ho

/-! ### Claims C1 and C10: grouping completeness and output order -/

/-- Two rows of the same (country, indicator, year) with distinct values:
one distinct year, two rows. -/
def c1Input : List Obs :=
  [⟨"DE", "GEP", 2018, some 100⟩, ⟨"DE", "GEP", 2018, some 200⟩]

/-- Counterexample to claim C1: in `c1Input` the (DE, GEP) group has
exactly one distinct year, yet the pair appears in the output (the code
gates on the number of rows, not the number of distinct years). -/
theorem c1_counterexample :
    ((groupOf (filterNonNull c1Input) ("DE", "GEP")).map ObsF.year).dedup
        = [2018] ∧
    (build_insights_rows c1Input).map (fun r => (r.geo, r.indicator))
        = [("DE", "GEP")] := by
  constructor
  · norm_num [groupOf, filterNonNull, obsKey, c1Input,
      List.filterMap_cons, List.filterMap_nil, List.filter_cons, List.filter_nil,
      List.dedup_cons_of_mem, List.dedup_cons_of_not_mem, List.dedup_nil]
  · norm_num [build_insights_rows, c1Input, filterNonNull, sortedKeys, obsKey,
      groupOf, sortByYear, insightRecord, mkInsightRow, indicator_name,
      country_name, trend_label, defaultThreshold,
      List.insertionSort, List.orderedInsert, max_def,
      List.dedup_cons_of_mem, List.dedup_cons_of_not_mem, List.dedup_nil,
      List.filterMap_cons, List.filterMap_nil, List.filter_cons, List.filter_nil,
      List.getLast?_cons_cons, List.getLast?_singleton]

/-- Claim C1 as amended by the counterexample: a (country, indicator)
pair appears in the output exactly once iff its null-filtered group has
at least 2 rows (not 2 distinct years); pairs with a single row never
appear. -/
theorem c1_amended (input : List Obs) (k : String × String) :
    ((build_insights_rows input).map (fun r => (r.geo, r.indicator))).count k
      = if 2 ≤ (groupOf (filterNonNull input) k).length then 1 else 0 := by
  simp only [build_insights_rows]
  rw [map_key_rows]
  by_cases h2 : 2 ≤ (groupOf (filterNonNull input) k).length
  · rw [if_pos h2]
    have hne : groupOf (filterNonNull input) k ≠ [] := by
      intro he; rw [he] at h2; simp at h2
    have hmemk : k ∈ sortedKeys (filterNonNull input) :=
      mem_sortedKeys_of_group_ne hne
    have hp : (insightRecord k (groupOf (filterNonNull input) k)).isSome = true :=
      (insightRecord_isSome_iff _ _).mpr h2
    refine count_eq_one_of_mem_nodup ((nodup_sortedKeys _).filter _) ?_
    rw [List.mem_filter]
    exact ⟨hmemk, hp⟩
  · rw [if_neg h2]
    rw [List.count_eq_zero]
    intro hmem
    exact h2 ((insightRecord_isSome_iff _ _).mp (List.mem_filter.mp hmem).2)

/-- Claim C10: the Insight Builder emits its rows sorted in strictly
ascending lexicographic order of (geo, indicator), because the groupby
iteration visits group keys in sorted order. -/
theorem c10_output_sorted (input : List Obs) :
    List.Pairwise keyLt
      ((build_insights_rows input).map fun r => (r.geo, r.indicator)) := by
  simp only [build_insights_rows]
  rw [map_key_rows]
  exact (pairwise_keyLt_sortedKeys _).filter _

/-! ### Claim C3: deduplication by year -/

/-- Modelled from the spec: the `Series` data model — "ordered sequence of
(year, value) pairs for one (country, indicator) pair, sorted ascending by
year, deduplicated by year via aggregation (mean when multiple raw
observations share a year)". Used only to compare the claimed
behaviour of the spec with the actual behaviour of the code. -/
def specDedupSeries (g : List ObsF) : List (Int × ℚ) :=
  (List.insertionSort (fun a b => a ≤ b) (g.map ObsF.year).dedup).map fun y =>
    let vs := (g.filter fun o => o.year = y).map ObsF.value
    (y, vs.sum / (vs.length : ℚ))

/-- Two same-year observations plus one later observation. -/
def c3Input : List Obs :=
  [⟨"DE", "GEP", 2018, some 100⟩, ⟨"DE", "GEP", 2018, some 200⟩,
   ⟨"DE", "GEP", 2019, some 150⟩]

/-- Counterexample to claim C3: the year-deduplicated mean series of the
(DE, GEP) group starts at value 150, but the row emitted by the Insight Builder
starts at 100 — it takes the first raw sorted row, without aggregating the
two 2018 observations by mean. -/
theorem c3_counterexample :
    specDedupSeries (groupOf (filterNonNull c3Input) ("DE", "GEP"))
        = [(2018, 150), (2019, 150)] ∧
    (build_insights_rows c3Input).map InsightRow.start_value = [100] ∧
    (100 : ℚ) ≠ 150 := by
  refine ⟨?_, ?_, by norm_num⟩
  · norm_num [specDedupSeries, groupOf, filterNonNull, obsKey, c3Input,
      List.insertionSort, List.orderedInsert,
      List.dedup_cons_of_mem, List.dedup_cons_of_not_mem, List.dedup_nil,
      List.filterMap_cons, List.filterMap_nil, List.filter_cons, List.filter_nil]
  · norm_num [build_insights_rows, c3Input, filterNonNull, sortedKeys, obsKey,
      groupOf, sortByYear, insightRecord, mkInsightRow, indicator_name,
      country_name, trend_label, defaultThreshold,
      List.insertionSort, List.orderedInsert, max_def,
      List.dedup_cons_of_mem, List.dedup_cons_of_not_mem, List.dedup_nil,
      List.filterMap_cons, List.filterMap_nil, List.filter_cons, List.filter_nil,
      List.getLast?_cons_cons, List.getLast?_singleton]

/-! ### Claim C4: column schema -/

/-- A single non-null observation: its group is skipped, so `records`
stays empty while the DataFrame is non-empty. -/
def c4Input : List Obs := [⟨"DE", "GEP", 2018, some 100⟩]

/-- The output rows are empty whenever the filtered input is empty. -/
theorem build_insights_rows_of_filter_nil {input : List Obs}
    (he : filterNonNull input = []) : build_insights_rows input = [] := by
  simp only [build_insights_rows, he]
  simp [sortedKeys, obsKey]

/-- Counterexample to claim C4: a non-empty input whose only group has a
single row makes `build_insights_df` return `pd.DataFrame([])`, which has
no columns at all — not the 12-column schema. -/
theorem c4_counterexample :
    build_insights_columns c4Input = [] ∧ insightColumnsEmptyBranch ≠ [] := by
  constructor
  · have h1 : filterNonNull c4Input ≠ [] := by
      norm_num [filterNonNull, c4Input, List.filterMap_cons]
    have h2 : build_insights_rows c4Input = [] := by
      norm_num [build_insights_rows, c4Input, filterNonNull, sortedKeys, obsKey,
        groupOf, sortByYear, insightRecord, mkInsightRow,
        List.insertionSort, List.orderedInsert,
        List.dedup_cons_of_mem, List.dedup_cons_of_not_mem, List.dedup_nil,
        List.filterMap_cons, List.filterMap_nil, List.filter_cons, List.filter_nil]
    unfold build_insights_columns
    rw [if_neg h1, if_pos h2]
  · simp [insightColumnsEmptyBranch]

/-- Claim C4 as amended by the counterexample: empty or all-null input
yields an empty table with the 12-column schema; an input that produces at
least one insight row yields exactly those 12 columns (as a set — the
record branch lists `insight_text` last); but a non-empty input whose
groups are all skipped yields an empty table with no columns. -/
theorem c4_amended (input : List Obs) :
    (filterNonNull input = [] →
      build_insights_columns input = insightColumnsEmptyBranch ∧
      build_insights_rows input = []) ∧
    (build_insights_rows input ≠ [] →
      build_insights_columns input = insightColumnsRecordBranch ∧
      insightColumnsRecordBranch.Perm insightColumnsEmptyBranch) ∧
    (filterNonNull input ≠ [] → build_insights_rows input = [] →
      build_insights_columns input = []) := by
  refine ⟨?_, ?_, ?_⟩
  · intro he
    refine ⟨?_, build_insights_rows_of_filter_nil he⟩
    unfold build_insights_columns
    rw [if_pos he]
  · intro hne
    have hfne : filterNonNull input ≠ [] := fun he =>
      hne (build_insights_rows_of_filter_nil he)
    constructor
    · unfold build_insights_columns
      rw [if_neg hfne, if_neg hne]
    · decide
  · intro hfne hrows
    unfold build_insights_columns
    rw [if_neg hfne, if_pos hrows]

/-- Witness for C4 (amended) at three concrete inputs: the empty input,
a two-row input producing one insight row, and the single-row input. -/
theorem c4_amended_witness :
    (build_insights_columns [] = insightColumnsEmptyBranch ∧
      build_insights_rows ([] : List Obs) = []) ∧
    (build_insights_columns c8Input = insightColumnsRecordBranch ∧
      insightColumnsRecordBranch.Perm insightColumnsEmptyBranch) ∧
    build_insights_columns c4Input = [] := by
  refine ⟨(c4_amended []).1 rfl, (c4_amended c8Input).2.1 ?_,
    (c4_amended c4Input).2.2 ?_ ?_⟩
  · have heval : build_insights_rows c8Input = [c8Row] := by
      norm_num [build_insights_rows, c8Input, filterNonNull, sortedKeys, obsKey,
        groupOf, sortByYear, insightRecord, mkInsightRow, indicator_name,
        country_name, trend_label, defaultThreshold, c8Row,
        List.insertionSort, List.orderedInsert, max_def,
        List.dedup_cons_of_mem, List.dedup_cons_of_not_mem, List.dedup_nil,
        List.filterMap_cons, List.filterMap_nil, List.filter_cons, List.filter_nil,
        List.getLast?_cons_cons, List.getLast?_singleton]
    rw [heval]; simp
  · norm_num [filterNonNull, c4Input, List.filterMap_cons]
  · norm_num [build_insights_rows, c4Input, filterNonNull, sortedKeys, obsKey,
      groupOf, sortByYear, insightRecord, mkInsightRow,
      List.insertionSort, List.orderedInsert,
      List.dedup_cons_of_mem, List.dedup_cons_of_not_mem, List.dedup_nil,
      List.filterMap_cons, List.filterMap_nil, List.filter_cons, List.filter_nil]

/-! ### Structural lemmas about `load_gep_timeseries` -/

/-- A filterMap whose function is an if-none pattern is a filter-map. -/
theorem filterMapIfNone {α β : Type} (q : α → Bool) (g : α → β) :
    ∀ l : List α,
      (l.filterMap fun a => if q a then none else some (g a))
        = (l.filter fun a => !q a).map g := by
  intro l
  induction l with
  | nil => simp
  | cons a l ih =>
    by_cases h : q a <;>
      simp [List.filterMap_cons, List.filter_cons, h, ih]

theorem load_gep_timeseries_eq (obs : List RawObs) :
    load_gep_timeseries obs
      = ((sortedYears obs).filter fun y => !(yearValues obs y).isEmpty).map
          (fun y => (y, (yearValues obs y).sum / ((yearValues obs y).length : ℚ))) := by
  unfold load_gep_timeseries
  exact filterMapIfNone (fun y => (yearValues obs y).isEmpty) _ _

theorem nodup_sortedYears (obs : List RawObs) : (sortedYears obs).Nodup :=
  ((List.perm_insertionSort _ _).symm).nodup (List.nodup_dedup _)

theorem sortedYears_pairwise_lt (obs : List RawObs) :
    List.Pairwise (fun a b : Int => a < b) (sortedYears obs) :=
  List.Sorted.lt_of_le (List.sorted_insertionSort _ _) (nodup_sortedYears obs)

/-- The loaded series has strictly increasing years: at most one row per
calendar year (the SQL `GROUP BY` deduplicates). -/
theorem load_years_pairwise (obs : List RawObs) :
    List.Pairwise (fun p q : Int × ℚ => p.1 < q.1) (load_gep_timeseries obs) := by
  rw [load_gep_timeseries_eq, List.pairwise_map]
  exact (sortedYears_pairwise_lt obs).filter _

/-- The value of every loaded row is the mean of the non-null raw values
of that year, and the year has at least one non-null value. -/
theorem mem_load_gep_timeseries {obs : List RawObs} {p : Int × ℚ}
    (h : p ∈ load_gep_timeseries obs) :
    p.2 = (yearValues obs p.1).sum / ((yearValues obs p.1).length : ℚ) ∧
      yearValues obs p.1 ≠ [] := by
  rw [load_gep_timeseries_eq, List.mem_map] at h
  obtain ⟨y, hy, hp⟩ := h
  have hmem := List.mem_filter.mp hy
  subst hp
  refine ⟨rfl, ?_⟩
  have h2 := hmem.2
  simp only [Bool.not_eq_eq_eq_not, Bool.not_true] at h2
  intro he
  rw [he] at h2
  simp at h2

/-! ### Claim C3 (amended) -/

/-- Claim C3 as amended by the counterexample: the Forecaster loads its
series deduplicated by year (strictly increasing years) with each value
the mean of the non-null observations of that year; the Insight Builder does
not deduplicate — it sorts the raw filtered group rows by year and takes
the values of the first and last rows as start/end. -/
theorem c3_amended :
    (∀ obs : List RawObs,
      List.Pairwise (fun p q : Int × ℚ => p.1 < q.1) (load_gep_timeseries obs)) ∧
    (∀ (obs : List RawObs) (p : Int × ℚ), p ∈ load_gep_timeseries obs →
      p.2 = (yearValues obs p.1).sum / ((yearValues obs p.1).length : ℚ) ∧
        yearValues obs p.1 ≠ []) ∧
    (∀ (input : List Obs) (row : InsightRow), row ∈ build_insights_rows input →
      ∃ first lastr,
        (sortByYear (groupOf (filterNonNull input) (row.geo, row.indicator))).head?
            = some first ∧
        (sortByYear (groupOf (filterNonNull input) (row.geo, row.indicator))).getLast?
            = some lastr ∧
        row.start_value = first.value ∧ row.end_value = lastr.value) := by
  refine ⟨load_years_pairwise, fun obs p h => mem_load_gep_timeseries h, ?_⟩
  intro input row h
  obtain ⟨k, first, lastr, _, _, hh, hl, hrow⟩ := mem_build_insights_rows h
  subst hrow
  have hk : ((mkInsightRow k first lastr).geo, (mkInsightRow k first lastr).indicator) = k := rfl
  rw [hk]
  exact ⟨first, lastr, hh, hl, rfl, rfl⟩

/-- Witness for C3 (amended): a series with duplicate 2018 observations,
loaded by the Forecaster with the mean, and the Insight Builder row built
from raw first/last rows. -/
theorem c3_amended_witness :
    List.Pairwise (fun p q : Int × ℚ => p.1 < q.1)
      (load_gep_timeseries [⟨2018, some 100⟩, ⟨2018, some 200⟩, ⟨2019, some 150⟩]) ∧
    (∃ first lastr,
      (sortByYear (groupOf (filterNonNull c3Input)
          ("DE", "GEP"))).head? = some first ∧
      (sortByYear (groupOf (filterNonNull c3Input)
          ("DE", "GEP"))).getLast? = some lastr ∧
      (100 : ℚ) = first.value ∧ (150 : ℚ) = lastr.value) := by
  constructor
  · exact c3_amended.1 [⟨2018, some 100⟩, ⟨2018, some 200⟩, ⟨2019, some 150⟩]
  · have heval : build_insights_rows c3Input = [mkInsightRow ("DE", "GEP")
        ⟨"DE", "GEP", 2018, 100⟩ ⟨"DE", "GEP", 2019, 150⟩] := by
      norm_num [build_insights_rows, c3Input, filterNonNull, sortedKeys, obsKey,
        groupOf, sortByYear, insightRecord, mkInsightRow, indicator_name,
        country_name, trend_label, defaultThreshold,
        List.insertionSort, List.orderedInsert, max_def,
        List.dedup_cons_of_mem, List.dedup_cons_of_not_mem, List.dedup_nil,
        List.filterMap_cons, List.filterMap_nil, List.filter_cons, List.filter_nil,
        List.getLast?_cons_cons, List.getLast?_singleton]
    have hmem : mkInsightRow ("DE", "GEP") ⟨"DE", "GEP", 2018, 100⟩
        ⟨"DE", "GEP", 2019, 150⟩ ∈ build_insights_rows c3Input := by
      rw [heval]; exact List.mem_singleton.mpr rfl
    obtain ⟨first, lastr, hh, hl, hs, he⟩ := c3_amended.2.2 c3Input _ hmem
    exact ⟨first, lastr, hh, hl, hs, he⟩

/-! ### Distinct-year counting for the forecast gate -/

/-- The number of distinct years carrying at least one non-null value. -/
def distinctValueYears (obs : List RawObs) : Nat :=
  ((obs.filterMap fun o => o.value.map fun _ => o.year).dedup).length

theorem yearValues_ne_nil_iff (obs : List RawObs) (y : Int) :
    yearValues obs y ≠ [] ↔ ∃ o ∈ obs, o.year = y ∧ o.value ≠ none := by
  unfold yearValues
  rw [Ne, List.filterMap_eq_nil_iff]
  push_neg
  constructor
  · rintro ⟨o, ho, hne⟩
    by_cases hy : o.year = y
    · exact ⟨o, ho, hy, by simpa [hy] using hne⟩
    · simp [hy] at hne
  · rintro ⟨o, ho, hy, hv⟩
    exact ⟨o, ho, by simpa [hy] using hv⟩

theorem mem_sortedYears_iff (obs : List RawObs) (y : Int) :
    y ∈ sortedYears obs ↔ ∃ o ∈ obs, o.year = y := by
  rw [sortedYears, (List.perm_insertionSort _ _).mem_iff, List.mem_dedup,
    List.mem_map]

/-- The length of the loaded series equals the number of distinct years
with a non-null value. -/
theorem load_length_eq (obs : List RawObs) :
    (load_gep_timeseries obs).length = distinctValueYears obs := by
  rw [load_gep_timeseries_eq, List.length_map]
  refine List.Perm.length_eq ?_
  refine (List.perm_ext_iff_of_nodup ((nodup_sortedYears obs).filter _)
    (List.nodup_dedup _)).mpr ?_
  intro y
  rw [List.mem_filter, List.mem_dedup, List.mem_filterMap]
  constructor
  · rintro ⟨h1, h2⟩
    have h2ne : yearValues obs y ≠ [] := by
      simp only [Bool.not_eq_eq_eq_not, Bool.not_true] at h2
      intro he; rw [he] at h2; simp at h2
    obtain ⟨o, ho, hy, hv⟩ := (yearValues_ne_nil_iff obs y).mp h2ne
    rcases hval : o.value with _ | v
    · exact absurd hval hv
    · exact ⟨o, ho, by simp [hval, hy]⟩
  · rintro ⟨o, ho, hmap⟩
    rcases hval : o.value with _ | v
    · rw [hval] at hmap; simp at hmap
    · rw [hval] at hmap
      simp at hmap
      refine ⟨(mem_sortedYears_iff obs y).mpr ⟨o, ho, hmap⟩, ?_⟩
      have hne : yearValues obs y ≠ [] :=
        (yearValues_ne_nil_iff obs y).mpr ⟨o, ho, hmap, by simp [hval]⟩
      simpa using hne

/-! ### `maxYear` lemmas -/

theorem foldl_max_init (l : List (Int × ℚ)) (b : Int) :
    b ≤ l.foldl (fun acc q => max acc q.1) b := by
  induction l generalizing b with
  | nil => exact le_refl b
  | cons p ps ih => exact le_trans (le_max_left _ _) (ih (max b p.1))

theorem le_foldl_max (l : List (Int × ℚ)) (b : Int) :
    ∀ p ∈ l, p.1 ≤ l.foldl (fun acc q => max acc q.1) b := by
  induction l generalizing b with
  | nil => intro p hp; simp at hp
  | cons q ps ih =>
    intro p hp
    rcases List.mem_cons.mp hp with he | hm
    · subst he
      exact le_trans (le_max_right _ _) (foldl_max_init ps (max b p.1))
    · exact ih (max b q.1) p hm

/-- Every year of the series is at most `maxYear`. -/
theorem le_maxYear {df : List (Int × ℚ)} : ∀ p ∈ df, p.1 ≤ maxYear df := by
  intro p hp
  cases df with
  | nil => simp at hp
  | cons q ps =>
    unfold maxYear
    rcases List.mem_cons.mp hp with he | hm
    · subst he
      exact foldl_max_init ps p.1
    · exact le_foldl_max ps q.1 p hm

theorem foldl_max_mem (l : List (Int × ℚ)) (b : Int) :
    l.foldl (fun acc q => max acc q.1) b = b ∨
      l.foldl (fun acc q => max acc q.1) b ∈ l.map Prod.fst := by
  induction l generalizing b with
  | nil => exact Or.inl rfl
  | cons p ps ih =>
    rcases ih (max b p.1) with h | h
    · rcases max_choice b p.1 with hm | hm
      · exact Or.inl (by rw [List.foldl_cons, h, hm])
      · refine Or.inr ?_
        rw [List.foldl_cons, h, hm]
        simp
    · refine Or.inr ?_
      rw [List.foldl_cons]
      simp only [List.map_cons, List.mem_cons]
      exact Or.inr h

/-- `maxYear` of a non-empty series is one of its years. -/
theorem maxYear_mem {df : List (Int × ℚ)} (h : df ≠ []) :
    maxYear df ∈ df.map Prod.fst := by
  cases df with
  | nil => exact absurd rfl h
  | cons p ps =>
    simp only [maxYear]
    rcases foldl_max_mem ps p.1 with h1 | h1
    · rw [h1]; simp
    · simp only [List.map_cons, List.mem_cons]
      exact Or.inr h1

/-! ### Claims C2, C5, C6: the Forecaster -/

/-- A 5-distinct-year constant (degenerate) GEP history. -/
def fiveYearSeries : List RawObs :=
  [⟨2018, some 50⟩, ⟨2019, some 50⟩, ⟨2020, some 50⟩,
   ⟨2021, some 50⟩, ⟨2022, some 50⟩]

/-- A 4-distinct-year GEP history. -/
def fourYearSeries : List RawObs :=
  [⟨2018, some 10⟩, ⟨2019, some 20⟩, ⟨2020, some 30⟩, ⟨2021, some 40⟩]

/-- Claim C2 (code-bug evaluation): on a degenerate constant series of 5
distinct years, when the smoothing fit fails, `forecast_gep` propagates
the failure to its caller instead of converting it to the "unavailable"
outcome — the source wraps `ExponentialSmoothing(...).fit()` in no
try/except (and line 8 even misspells the import as
`ExponentialSmoothinging`, so the module cannot load at all). -/
theorem c2_code_bug_eval :
    forecast_gep fiveYearSeries 5 (fun _ => Except.error "fit failed")
      = Except.error "fit failed" := by
  norm_num [forecast_gep, fiveYearSeries, load_gep_timeseries, sortedYears,
    yearValues, List.insertionSort, List.orderedInsert,
    List.dedup_cons_of_mem, List.dedup_cons_of_not_mem, List.dedup_nil,
    List.filterMap_cons, List.filterMap_nil]

/-- Claim C5: `forecast_gep` returns the "unavailable" sentinel (`none`)
without raising whenever the GEP history of the country has fewer than 5
distinct years of data; with at least 5 distinct years (and the external
fit succeeding) it returns a non-empty result containing exactly
`horizon_years` forecast rows. -/
theorem c5_forecast_gating (obs : List RawObs) (horizon_years : Nat)
    (fit : List (Int × ℚ) → Except String (Nat → ℚ)) :
    (load_gep_timeseries obs).length = distinctValueYears obs ∧
    (distinctValueYears obs < 5 →
      forecast_gep obs horizon_years fit = Except.ok none) ∧
    (5 ≤ distinctValueYears obs →
      ∀ f, fit (load_gep_timeseries obs) = Except.ok f →
        ∃ rows, forecast_gep obs horizon_years fit = Except.ok (some rows) ∧
          rows ≠ [] ∧
          (rows.filter fun r => r.kind = Kind.forecast).length = horizon_years) := by
  have hlen := load_length_eq obs
  refine ⟨hlen, ?_, ?_⟩
  · intro hlt
    simp only [forecast_gep]
    rw [if_pos (by omega)]
  · intro hge f hf
    simp only [forecast_gep]
    rw [if_neg (by omega), hf]
    refine ⟨_, rfl, ?_, ?_⟩
    · intro he
      have hl := congrArg List.length he
      simp only [List.length_append, List.length_map, List.length_range,
        List.length_nil] at hl
      omega
    · rw [List.filter_append]
      have h1 : List.filter (fun r => decide (r.kind = Kind.forecast))
          ((load_gep_timeseries obs).map fun p =>
            (⟨p.1, p.2, Kind.historical⟩ : ForecastRow)) = [] := by
        rw [List.filter_eq_nil_iff]
        intro r hr
        rw [List.mem_map] at hr
        obtain ⟨p, _, hp⟩ := hr
        subst hp
        simp
      have h2 : List.filter (fun r => decide (r.kind = Kind.forecast))
          ((List.range horizon_years).map fun i =>
            (⟨maxYear (load_gep_timeseries obs) + 1 + Int.ofNat i, f i,
              Kind.forecast⟩ : ForecastRow))
          = (List.range horizon_years).map fun i =>
            (⟨maxYear (load_gep_timeseries obs) + 1 + Int.ofNat i, f i,
              Kind.forecast⟩ : ForecastRow) := by
        rw [List.filter_eq_self]
        intro r hr
        rw [List.mem_map] at hr
        obtain ⟨i, _, hi⟩ := hr
        subst hi
        simp
      rw [h1, h2, List.nil_append, List.length_map, List.length_range]

/-- Witness for C5 at a 4-year series (unavailable) and a 5-year series
with a successful constant fit (non-empty forecast of length 3). -/
theorem c5_forecast_gating_witness :
    (distinctValueYears fourYearSeries < 5 ∧
      forecast_gep fourYearSeries 5 (fun _ => Except.ok fun _ => 50)
        = Except.ok none) ∧
    (5 ≤ distinctValueYears fiveYearSeries ∧
      ∃ rows, forecast_gep fiveYearSeries 3 (fun _ => Except.ok fun _ => 50)
          = Except.ok (some rows) ∧ rows ≠ [] ∧
        (rows.filter fun r => r.kind = Kind.forecast).length = 3) := by
  have h4 : distinctValueYears fourYearSeries = 4 := by
    norm_num [distinctValueYears, fourYearSeries,
      List.filterMap_cons, List.filterMap_nil,
      List.dedup_cons_of_mem, List.dedup_cons_of_not_mem, List.dedup_nil]
  have h5 : distinctValueYears fiveYearSeries = 5 := by
    norm_num [distinctValueYears, fiveYearSeries,
      List.filterMap_cons, List.filterMap_nil,
      List.dedup_cons_of_mem, List.dedup_cons_of_not_mem, List.dedup_nil]
  refine ⟨⟨by omega, (c5_forecast_gating fourYearSeries 5 _).2.1 (by omega)⟩,
    by omega, (c5_forecast_gating fiveYearSeries 3 _).2.2 (by omega)
      (fun _ => (50 : ℚ)) rfl⟩

/-- Claim C6: for a historical series of n distinct years ending in year
Y and horizon h (with the external fit succeeding), the combined output
is exactly the n historical rows (years and values unchanged, tagged
historical) followed by exactly h forecast rows for the consecutive years
Y+1 .. Y+h (tagged forecast), with strictly ascending years throughout —
no gaps at the junction, no overlaps, all historical rows before all
forecast rows. -/
theorem c6_forecast_continuity (obs : List RawObs) (h : Nat)
    (fit : List (Int × ℚ) → Except String (Nat → ℚ)) (f : Nat → ℚ)
    (hlen : 5 ≤ (load_gep_timeseries obs).length)
    (hfit : fit (load_gep_timeseries obs) = Except.ok f) :
    ∃ hist fc : List ForecastRow,
      forecast_gep obs h fit = Except.ok (some (hist ++ fc)) ∧
      hist = (load_gep_timeseries obs).map
        (fun p => ⟨p.1, p.2, Kind.historical⟩) ∧
      fc.map ForecastRow.year = (List.range h).map
        (fun i => maxYear (load_gep_timeseries obs) + 1 + Int.ofNat i) ∧
      (∀ r ∈ fc, r.kind = Kind.forecast) ∧
      (∀ r ∈ hist, r.year ≤ maxYear (load_gep_timeseries obs)) ∧
      maxYear (load_gep_timeseries obs)
          ∈ (load_gep_timeseries obs).map Prod.fst ∧
      List.Pairwise (fun a b : ForecastRow => a.year < b.year) (hist ++ fc) := by
  refine ⟨(load_gep_timeseries obs).map (fun p => ⟨p.1, p.2, Kind.historical⟩),
    (List.range h).map (fun i =>
      ⟨maxYear (load_gep_timeseries obs) + 1 + Int.ofNat i, f i, Kind.forecast⟩),
    ?_, rfl, ?_, ?_, ?_, ?_, ?_⟩
  · simp only [forecast_gep]
    rw [if_neg (by omega), hfit]
  · rw [List.map_map]
    rfl
  · intro r hr
    rw [List.mem_map] at hr
    obtain ⟨i, _, hi⟩ := hr
    subst hi
    rfl
  · intro r hr
    rw [List.mem_map] at hr
    obtain ⟨p, hp, he⟩ := hr
    subst he
    exact le_maxYear p hp
  · exact maxYear_mem (by intro he; rw [he] at hlen; simp at hlen)
  · rw [List.pairwise_append]
    refine ⟨?_, ?_, ?_⟩
    · rw [List.pairwise_map]
      exact load_years_pairwise obs
    · rw [List.pairwise_map]
      refine (List.pairwise_lt_range h).imp ?_
      intro i j hij
      show maxYear (load_gep_timeseries obs) + 1 + (i : ℤ)
          < maxYear (load_gep_timeseries obs) + 1 + (j : ℤ)
      omega
    · intro a ha b hb
      rw [List.mem_map] at ha hb
      obtain ⟨p, hp, hea⟩ := ha
      obtain ⟨i, _, heb⟩ := hb
      subst hea
      subst heb
      have hpm := le_maxYear p hp
      show p.1 < maxYear (load_gep_timeseries obs) + 1 + (i : ℤ)
      omega

/-- Witness for C6 at the 5-year constant series with horizon 2. -/
theorem c6_forecast_continuity_witness :
    5 ≤ (load_gep_timeseries fiveYearSeries).length ∧
    ∃ hist fc : List ForecastRow,
      forecast_gep fiveYearSeries 2 (fun _ => Except.ok fun _ => 50)
          = Except.ok (some (hist ++ fc)) ∧
      hist = (load_gep_timeseries fiveYearSeries).map
        (fun p => ⟨p.1, p.2, Kind.historical⟩) ∧
      fc.map ForecastRow.year = (List.range 2).map
        (fun i => maxYear (load_gep_timeseries fiveYearSeries) + 1 + Int.ofNat i) ∧
      (∀ r ∈ fc, r.kind = Kind.forecast) ∧
      (∀ r ∈ hist, r.year ≤ maxYear (load_gep_timeseries fiveYearSeries)) ∧
      maxYear (load_gep_timeseries fiveYearSeries)
          ∈ (load_gep_timeseries fiveYearSeries).map Prod.fst ∧
      List.Pairwise (fun a b : ForecastRow => a.year < b.year) (hist ++ fc) := by
  have hl : (load_gep_timeseries fiveYearSeries).length = 5 := by
    rw [load_length_eq]
    norm_num [distinctValueYears, fiveYearSeries,
      List.filterMap_cons, List.filterMap_nil,
      List.dedup_cons_of_mem, List.dedup_cons_of_not_mem, List.dedup_nil]
  exact ⟨by omega,
    c6_forecast_continuity fiveYearSeries 2 _ (fun _ => (50 : ℚ)) (by omega) rfl⟩

end Eurostat
